import Mathlib

/-!
Verification development for the EcoScan sustainability-analysis service.

The definitions below are a shallow embedding of the repository's core
pipeline: the backend relay (`server.js`, enhanced version): image-format
validation, the statistical image-quality estimator, the AI-response
parser with its brace-extraction fallback, and the response
validator/enhancer; and the client: the shopping-platform link generator
(`platformLinks.ts`) and the unknown-product / low-confidence gate
(`sustainabilityApi.ts`).

Modelling conventions:
* JavaScript numbers that the code only compares and clamps are modelled
  as `Int`; sharp's per-channel `mean`/`stdev` statistics (floats) are
  modelled as `Rat`, since the code only compares them against integer
  thresholds.
* JavaScript falsiness of `""` and `0` in `x || default` expressions is
  modelled explicitly (`jsOrStr`, `jsOrInt`).
* `Math.random()` is modelled as an explicit stream of rational draws in
  `[0,1)`, one per alternatives-list position, passed as an argument.
* `JSON.parse` is modelled by a fuel-indexed recursive-descent parser
  over the JSON grammar, with the number grammar restricted to
  optional-sign integers (every numeric literal exercised by the claims
  is such an integer) and string escapes `\" \\ \/ \b \f \n \r \t \uXXXX`.
-/

/-! ## Generic JavaScript-flavoured helpers -/

/-- `o || d` for JS strings: `none` and `""` are falsy. -/
def jsOrStr : Option String → String → String
  | some s, d => if s == "" then d else s
  | none, d => d

/-- `o || d` for JS numbers: `none` and `0` are falsy. -/
def jsOrInt : Option Int → Int → Int
  | some n, d => if n == 0 then d else n
  | none, d => d

/-- ASCII case-folding, modelling `String.prototype.toLowerCase` on the
ASCII inputs this code handles. -/
def lowerAscii (s : String) : List Char := s.toList.map Char.toLower

/-- Does `l` start with `pat`? -/
def hasPrefixCh : List Char → List Char → Bool
  | _, [] => true
  | [], _ :: _ => false
  | c :: cs, p :: ps => c == p && hasPrefixCh cs ps

/-- Does `l` contain `pat` as a contiguous run (JS `String.prototype.includes`)? -/
def hasSubstrCh : List Char → List Char → Bool
  | [], pat => pat.isEmpty
  | c :: rest, pat => hasPrefixCh (c :: rest) pat || hasSubstrCh rest pat

/-- `Math.floor(q * 20)` for a rational draw `q`, computed on the
numerator and denominator directly (for `den > 0`,
`⌊q * 20⌋ = (num * 20).fdiv den`). -/
def floorTimes20 (q : ℚ) : Int := Int.fdiv (q.num * 20) (q.den : Int)

/-! ## `encodeURIComponent` -/

/-- UTF-8 bytes of a character, as naturals. -/
def utf8Bytes (c : Char) : List Nat :=
  let n := c.toNat
  if n < 0x80 then [n]
  else if n < 0x800 then [0xC0 + n / 0x40, 0x80 + n % 0x40]
  else if n < 0x10000 then
    [0xE0 + n / 0x1000, 0x80 + (n / 0x40) % 0x40, 0x80 + n % 0x40]
  else
    [0xF0 + n / 0x40000, 0x80 + (n / 0x1000) % 0x40, 0x80 + (n / 0x40) % 0x40,
      0x80 + n % 0x40]

/-- Uppercase hexadecimal digit. -/
def toHexDigit (n : Nat) : Char :=
  if n < 10 then Char.ofNat (48 + n) else Char.ofNat (55 + n)

/-- Characters `encodeURIComponent` leaves unescaped:
`A-Z a-z 0-9 - _ . ! ~ * ' ( )`. -/
def isUnreservedURIChar (c : Char) : Bool :=
  c.isAlpha || c.isDigit || c == '-' || c == '_' || c == '.' || c == '!' ||
    c == '~' || c == '*' || c == Char.ofNat 39 || c == '(' || c == ')'

/-- Percent-encoding of a single character. -/
def percentEncodeChar (c : Char) : List Char :=
  (utf8Bytes c).foldr
    (fun b acc => '%' :: toHexDigit (b / 16) :: toHexDigit (b % 16) :: acc) []

/-- JavaScript's `encodeURIComponent`. -/
def encodeURIComponent (s : String) : String :=
  String.mk (s.toList.foldr
    (fun c acc => if isUnreservedURIChar c then c :: acc else percentEncodeChar c ++ acc)
    [])

/-! ## Image Quality Estimator (`analyzeImageQuality`, server.js enhanced version)

The sharp metadata/stats extraction is external I/O; the embedded
function starts from the per-channel statistics and dimensions it
yields.  The `metadata` passthrough field of the report is omitted: no
claim mentions it. -/

/-- One entry of sharp's `stats.channels`. -/
structure ChannelStat where
  mean : ℚ
  stdev : ℚ
deriving DecidableEq

/-- The report produced by `analyzeImageQuality`. -/
structure QualityReport where
  quality : String
  confidence : Int
  warnings : List String
deriving DecidableEq

def blurWarning : String := "Image appears blurry. Please upload a clearer photo."

def lowResWarning : String := "Image resolution is too low. Use a higher quality photo."

def compressWarning : String := "Image will be compressed for processing."

/-- `stats.channels.some(channel => channel.mean < 50 || channel.stdev < 20)` -/
def isBlurryStats (channels : List ChannelStat) : Bool :=
  channels.any (fun ch => decide (ch.mean < 50) || decide (ch.stdev < 20))

/-- The quality-tier logic of `analyzeImageQuality` (the non-error path),
mirroring the sequential reassignments of `quality`, `confidence` and
`warnings`. -/
def analyzeImageQualityStats (channels : List ChannelStat) (width height : Nat) :
    QualityReport :=
  let isBlurry := isBlurryStats channels
  let isTooSmall := decide (width < 200) || decide (height < 200)
  let isTooLarge := decide (width > 4000) || decide (height > 4000)
  let quality1 : String := if isBlurry then "blur" else "good"
  let confidence1 : Int := if isBlurry then 50 else 90
  let warnings1 : List String := if isBlurry then [blurWarning] else []
  let quality2 : String := if isTooSmall then "poor" else quality1
  let confidence2 : Int := if isTooSmall then min confidence1 60 else confidence1
  let warnings2 : List String :=
    if isTooSmall then warnings1 ++ [lowResWarning] else warnings1
  let warnings3 : List String :=
    if isTooLarge then warnings2 ++ [compressWarning] else warnings2
  { quality := quality2, confidence := confidence2, warnings := warnings3 }

/-- The `catch` fallback of `analyzeImageQuality` (sharp failed). -/
def analyzeImageQualityFailure : QualityReport :=
  { quality := "unknown", confidence := 75, warnings := ["Could not analyze image quality"] }

/-! ## Response Validator (`validateAndEnhanceAnalysis`, server.js enhanced version) -/

/-- One entry of the model-supplied `alternatives` array: either a bare
string or an object whose fields may be missing. -/
inductive RawAlt where
  | str (value : String)
  | obj (name description : Option String) (score : Option Int) (buyLink : Option String)
deriving DecidableEq

/-- The parsed model reply as consumed by `validateAndEnhanceAnalysis`:
each accessed field may be absent. -/
structure RawAnalysis where
  productName : Option String := none
  sustainabilityScore : Option Int := none
  confidence : Option Int := none
  imageQuality : Option String := none
  ecoLabels : Option (List String) := none
  recyclability : Option String := none
  carbonFootprint : Option String := none
  waterFootprint : Option String := none
  materialComposition : Option String := none
  lifespan : Option String := none
  energyProduction : Option String := none
  alternatives : Option (List RawAlt) := none
deriving DecidableEq

/-- A normalized alternative in the enhanced record. -/
structure EnhancedAlternative where
  name : String
  description : String
  score : Option Int
  buyLink : String
deriving DecidableEq

/-- The enhanced analysis record. -/
structure EnhancedAnalysis where
  productName : String
  sustainabilityScore : Int
  confidence : Int
  imageQuality : String
  ecoLabels : List String
  recyclability : String
  carbonFootprint : String
  waterFootprint : String
  materialComposition : String
  lifespan : String
  energyProduction : String
  alternatives : List EnhancedAlternative
  warnings : Option (List String)
deriving DecidableEq

/-- `Math.min(Math.max(analysis.sustainabilityScore || 50, 0), 100)` -/
def clampScore (o : Option Int) : Int := min (max (jsOrInt o 50) 0) 100

/-- The Amazon search link generated for a bare-string alternative. -/
def amazonStrAltLink (s : String) : String :=
  "https://www.amazon.com/s?k=" ++ encodeURIComponent s ++ "+eco+friendly+sustainable"

/-- The Amazon search link generated for an object alternative without a
usable `buyLink`. -/
def amazonObjAltLink (s : String) : String :=
  "https://www.amazon.com/s?k=" ++ encodeURIComponent s ++ "+sustainable"

/-- The fixed default alternatives substituted when the model supplies
none. -/
def fallbackAlternatives : List EnhancedAlternative :=
  [ { name := "Locally manufactured alternative"
      description := "Support local businesses and reduce transportation emissions"
      score := some 85
      buyLink := "https://www.amazon.com/s?k=local+eco+friendly+products" },
    { name := "Certified organic option"
      description := "Look for products with organic certifications"
      score := some 88
      buyLink := "https://www.amazon.com/s?k=certified+organic+sustainable" },
    { name := "Refurbished/Second-hand"
      description := "Extend product lifecycle by choosing pre-owned"
      score := some 92
      buyLink := "https://www.amazon.com/s?k=refurbished+renewed" } ]

/-- The body of `analysis.alternatives.map(alt => ...)`: `score` is the
already-clamped `enhanced.sustainabilityScore` and `rv` the
`Math.random()` draw consumed if this entry is a bare string. -/
def enhanceAlt (score : Int) (rv : ℚ) : RawAlt → EnhancedAlternative
  | .str s =>
    { name := s
      description := "Eco-friendly alternative with better sustainability"
      score := if score < 60 then some (floorTimes20 rv + 75) else none
      buyLink := amazonStrAltLink s }
  | .obj n d sc b =>
    { name := jsOrStr n "Alternative Product"
      description := jsOrStr d "Eco-friendly alternative"
      score :=
        match sc with
        | some v => if v == 0 then (if score < 60 then some 80 else none) else some v
        | none => if score < 60 then some 80 else none
      buyLink := jsOrStr b (amazonObjAltLink (jsOrStr n "eco product")) }

/-- Positional map of `enhanceAlt` over the model's list, feeding each
position its own random draw. -/
def enhanceAltList (score : Int) (r : Nat → ℚ) : Nat → List RawAlt → List EnhancedAlternative
  | _, [] => []
  | i, a :: rest => enhanceAlt score (r i) a :: enhanceAltList score r (i + 1) rest

/-- `Array.isArray(analysis.alternatives) && analysis.alternatives.length > 0
? map : fallback`. -/
def enhanceAlternatives (score : Int) (r : Nat → ℚ) :
    Option (List RawAlt) → List EnhancedAlternative
  | some l => if l.isEmpty then fallbackAlternatives else enhanceAltList score r 0 l
  | none => fallbackAlternatives

/-- `validateAndEnhanceAnalysis(analysis, imageQualityData)`, with the
`Math.random()` draws passed explicitly as `r`. -/
def validateAndEnhanceAnalysis (analysis : RawAnalysis) (q : QualityReport)
    (r : Nat → ℚ) : EnhancedAnalysis :=
  { productName := jsOrStr analysis.productName "Unknown Product"
    sustainabilityScore := clampScore analysis.sustainabilityScore
    confidence := jsOrInt analysis.confidence q.confidence
    imageQuality := jsOrStr analysis.imageQuality q.quality
    ecoLabels := analysis.ecoLabels.getD []
    recyclability := jsOrStr analysis.recyclability "Recyclability information not available"
    carbonFootprint := jsOrStr analysis.carbonFootprint "Moderate carbon impact estimated"
    waterFootprint := jsOrStr analysis.waterFootprint "Moderate water usage estimated"
    materialComposition := jsOrStr analysis.materialComposition "Mixed materials detected"
    lifespan := jsOrStr analysis.lifespan "Average product lifespan expected"
    energyProduction := jsOrStr analysis.energyProduction "Not applicable"
    alternatives := enhanceAlternatives (clampScore analysis.sustainabilityScore) r
      analysis.alternatives
    warnings := if q.warnings.isEmpty then none else some q.warnings }

/-- A good-quality report (helper input for concrete evaluations). -/
def qGood : QualityReport := { quality := "good", confidence := 90, warnings := [] }

/-- Random stream drawing 0 every time. -/
def rZero : Nat → ℚ := fun _ => 0

/-- Random stream drawing 1/2 every time. -/
def rHalf : Nat → ℚ := fun _ => mkRat 1 2

/-- A parsed reply with a sub-60 score and one bare-string alternative,
which makes `validateAndEnhanceAnalysis` consume a `Math.random()` draw. -/
def aRandomScore : RawAnalysis :=
  { sustainabilityScore := some 40, alternatives := some [RawAlt.str "Steel Bottle"] }

/-- A parsed reply supplying an out-of-range confidence. -/
def aConf150 : RawAnalysis := { confidence := some 150 }

/-- A parsed reply supplying a zero confidence. -/
def aConfZero : RawAnalysis := { confidence := some 0 }

/-- A parsed reply supplying an above-range sustainability score. -/
def aScore150 : RawAnalysis := { sustainabilityScore := some 150 }

/-- A parsed reply supplying a negative sustainability score. -/
def aScoreNeg5 : RawAnalysis := { sustainabilityScore := some (-5) }

/-- A parsed reply whose object alternative carries a model-supplied
`buyLink`. -/
def aEvilLink : RawAnalysis :=
  { sustainabilityScore := some 70
    alternatives := some [RawAlt.obj (some "Eco Cup") (some "Reusable cup") none
      (some "https://evil.example/buy")] }

/-- Is a model alternative free of a (truthy) `buyLink`? -/
def modelLinkFree : RawAlt → Bool
  | .str _ => true
  | .obj _ _ _ b => b.isNone || b == some ""

/-- The system-derived purchase link for a link-free model alternative. -/
def derivedBuyLink : RawAlt → String
  | .str s => amazonStrAltLink s
  | .obj n _ _ _ => amazonObjAltLink (jsOrStr n "eco product")

/-! ## Platform Link Generator (`client/src/utils/platformLinks.ts`) -/

/-- A shopping-platform link.  The `ShoppingPlatform` union type lives in
the client's `types.ts`; its three literal values are modelled as
strings. -/
structure PlatformLink where
  platform : String
  url : String
  displayName : String
deriving DecidableEq

/-- JavaScript `\s` on the ASCII range (the regexes here are applied to
product names). -/
def jsWhitespace (c : Char) : Bool :=
  c == ' ' || c == '\t' || c == '\n' || c == '\r' || c == Char.ofNat 11 || c == Char.ofNat 12

/-- `replace(/\s+/g, sep)`: each maximal whitespace run becomes `sep`. -/
def collapseWsAux (sep : List Char) : List Char → Bool → List Char
  | [], _ => []
  | c :: rest, inRun =>
    if jsWhitespace c then
      (if inRun then [] else sep) ++ collapseWsAux sep rest true
    else c :: collapseWsAux sep rest false

def replaceWsRuns (s : String) (sep : String) : String :=
  String.mk (collapseWsAux sep.toList s.toList false)

def toLowerStr (s : String) : String := String.mk (lowerAscii s)

/-- `generateFlipkartUrl` -/
def generateFlipkartUrl (query : String) : String :=
  "https://www.flipkart.com/search?q=" ++
    encodeURIComponent (replaceWsRuns (toLowerStr query) " ") ++
    "&as=on&as-show=on&otracker=search"

/-- `generateAmazonIndiaUrl` -/
def generateAmazonIndiaUrl (query : String) : String :=
  "https://www.amazon.in/s?k=" ++ encodeURIComponent (replaceWsRuns (toLowerStr query) "+")

/-- `generateMeeshoUrl` -/
def generateMeeshoUrl (query : String) : String :=
  "https://www.meesho.com/search?q=" ++ encodeURIComponent (toLowerStr query) ++
    "&searchType=manual&searchIdentifier=text_search"

/-- `generatePlatformLinks` -/
def generatePlatformLinks (productName : String) : List PlatformLink :=
  let ecoSearchQuery := productName ++ " eco friendly sustainable"
  [ { platform := "flipkart", url := generateFlipkartUrl ecoSearchQuery, displayName := "Flipkart" },
    { platform := "amazon", url := generateAmazonIndiaUrl ecoSearchQuery, displayName := "Amazon" },
    { platform := "meesho", url := generateMeeshoUrl ecoSearchQuery, displayName := "Meesho" } ]

/-! ## Unknown-Product / Low-Confidence Gate (`client/src/api/sustainabilityApi.ts`) -/

/-- The unknown-product test of `analyzeSustainability`:
`name.toLowerCase().includes('unknown') || name.toLowerCase() === 'unidentified product'
|| name.toLowerCase() === 'unclear'`. -/
def isUnknownName (name : String) : Bool :=
  hasSubstrCh (lowerAscii name) ("unknown".toList) ||
    decide (lowerAscii name = "unidentified product".toList) ||
    decide (lowerAscii name = "unclear".toList)

/-- `response.data.analysis.confidence && response.data.analysis.confidence < 50`,
with JS truthiness (an absent or zero confidence is falsy). -/
def lowConfTruthyCheck : Option Int → Bool
  | some c => !(c == 0) && decide (c < 50)
  | none => false

/-- The three terminal outcomes of the client gate. -/
inductive GateOutcome where
  | result
  | unknownProduct
  | lowConfidence
deriving DecidableEq

/-- The gate of `analyzeSustainability`, reading `productName` and
`confidence` off the received analysis: the unknown-product throw comes
before the low-confidence throw. -/
def analyzeGate (productName : String) (confidence : Option Int) : GateOutcome :=
  if isUnknownName productName then .unknownProduct
  else if lowConfTruthyCheck confidence then .lowConfidence
  else .result

/-! ## Relay route (`POST /api/sustainability/analyze`, server.js enhanced version)

Embedded up to the decision whether the external AI call is made: the
steps beyond (`compressAndOptimizeImage`, the axios call) happen only in
the `proceedToAICall` outcome. -/

/-- Result of `validateImageFormat`. -/
inductive FormatResult where
  | invalid (error : String)
  | ok
deriving DecidableEq

/-- The data-URL pattern `^data:image\/(jpeg|jpg|png|gif|webp);base64,` with
the `i` flag. -/
def validImageDataUrl (s : String) : Bool :=
  ["jpeg", "jpg", "png", "gif", "webp"].any (fun ext =>
    hasPrefixCh (lowerAscii s) (("data:image/" ++ ext ++ ";base64,").toList))

/-- `validateImageFormat(imageData)` (enhanced version, returning a
`{valid, error}` object). -/
def validateImageFormat : Option String → FormatResult
  | none => .invalid "No image data provided"
  | some s =>
    if s == "" then .invalid "No image data provided"
    else if validImageDataUrl s then .ok
    else .invalid "Invalid image format. Supported: JPEG, PNG, GIF, WebP"

/-- Outcome of the route handler's pre-call phase. -/
inductive RouteOutcome where
  | missingImage
  | serverConfigError
  | invalidFormat (details : String)
  | qualityReject (imageQuality : String) (confidence : Int) (warnings : List String)
  | proceedToAICall
deriving DecidableEq

/-- The pre-call phase of the `/api/sustainability/analyze` handler:
missing-image check, API-key check, format validation, then the quality
gate `quality === 'blur' && confidence < 40` on the report the quality
estimator produced for this image. -/
def analyzeRoute (image : Option String) (apiKeyConfigured : Bool)
    (q : QualityReport) : RouteOutcome :=
  match image with
  | none => .missingImage
  | some img =>
    if img == "" then .missingImage
    else if !apiKeyConfigured then .serverConfigError
    else
      match validateImageFormat (some img) with
      | .invalid e => .invalidFormat e
      | .ok =>
        if q.quality == "blur" && decide (q.confidence < 40) then
          .qualityReject q.quality q.confidence q.warnings
        else
          .proceedToAICall

/-- A well-formed data-URL image (helper input for concrete evaluations). -/
def imgOk : String := "data:image/png;base64,AAAA"

/-- A blur report below the gate threshold. -/
def qBlur39 : QualityReport := { quality := "blur", confidence := 39, warnings := [blurWarning] }

/-- A blur report exactly at the gate threshold. -/
def qBlur40 : QualityReport := { quality := "blur", confidence := 40, warnings := [blurWarning] }

/-- A channel statistic below both blur thresholds. -/
def chLow : ChannelStat := { mean := 10, stdev := 5 }

/-! ## `JSON.parse` model and `parseAIResponse` (server.js)

`JSON.parse` is a platform primitive; it is modelled by a fuel-indexed
recursive-descent parser over the JSON grammar (see the header note for
the modelled number grammar and escapes).  Like `JSON.parse`, the model
rejects input with trailing non-whitespace after the parsed value. -/

def lbraceChar : Char := Char.ofNat 123

def rbraceChar : Char := Char.ofNat 125

inductive Json where
  | null
  | bool (b : Bool)
  | num (n : Int)
  | str (s : String)
  | arr (elems : List Json)
  | obj (fields : List (String × Json))

/-- JSON whitespace. -/
def jsonWsChar (c : Char) : Bool := c == ' ' || c == '\t' || c == '\n' || c == '\r'

def skipJsonWs (cs : List Char) : List Char := cs.dropWhile jsonWsChar

/-- Hexadecimal digit value. -/
def hexVal : Char → Option Nat
  | c =>
    if c.isDigit then some (c.toNat - 48)
    else if 'a' ≤ c && c ≤ 'f' then some (c.toNat - 87)
    else if 'A' ≤ c && c ≤ 'F' then some (c.toNat - 55)
    else none

/-- Single-character string escapes. -/
def jsonEsc : Char → Option Char
  | '"' => some '"'
  | '\\' => some '\\'
  | '/' => some '/'
  | 'b' => some (Char.ofNat 8)
  | 'f' => some (Char.ofNat 12)
  | 'n' => some '\n'
  | 'r' => some '\r'
  | 't' => some '\t'
  | _ => none

/-- Parse the body of a JSON string (the opening quote already consumed),
returning the content and the remainder after the closing quote. -/
def parseStrAux : List Char → Option (List Char × List Char)
  | [] => none
  | '"' :: rest => some ([], rest)
  | '\\' :: 'u' :: a :: b :: c :: d :: rest =>
    match hexVal a, hexVal b, hexVal c, hexVal d with
    | some ha, some hb, some hc, some hd =>
      (fun p => (Char.ofNat (((ha * 16 + hb) * 16 + hc) * 16 + hd) :: p.1, p.2)) <$>
        parseStrAux rest
    | _, _, _, _ => none
  | '\\' :: e :: rest =>
    match jsonEsc e with
    | some ec => (fun p => (ec :: p.1, p.2)) <$> parseStrAux rest
    | none => none
  | c :: rest => (fun p => (c :: p.1, p.2)) <$> parseStrAux rest

/-- Accumulate leading decimal digits. -/
def digitsAux : Nat → List Char → Nat × List Char
  | acc, c :: rest =>
    if c.isDigit then digitsAux (acc * 10 + (c.toNat - 48)) rest else (acc, c :: rest)
  | acc, [] => (acc, [])

/-- Parse an optional-sign integer literal. -/
def parseIntLit : List Char → Option (Int × List Char)
  | '-' :: c :: rest =>
    if c.isDigit then
      let p := digitsAux (c.toNat - 48) rest
      some (-(Int.ofNat p.1), p.2)
    else none
  | c :: rest =>
    if c.isDigit then
      let p := digitsAux (c.toNat - 48) rest
      some (Int.ofNat p.1, p.2)
    else none
  | [] => none

mutual

/-- Parse one JSON value (fuel-indexed). -/
def parseValueF : Nat → List Char → Option (Json × List Char)
  | 0, _ => none
  | fuel + 1, cs =>
    match skipJsonWs cs with
    | [] => none
    | c :: rest =>
      if c == lbraceChar then
        match skipJsonWs rest with
        | c2 :: rest2 =>
          if c2 == rbraceChar then some (Json.obj [], rest2)
          else (fun p => (Json.obj p.1, p.2)) <$> parseMembersF fuel rest
        | [] => none
      else if c == '[' then
        match skipJsonWs rest with
        | ']' :: rest2 => some (Json.arr [], rest2)
        | _ => (fun p => (Json.arr p.1, p.2)) <$> parseElemsF fuel rest
      else if c == '"' then
        (fun p => (Json.str (String.mk p.1), p.2)) <$> parseStrAux rest
      else
        match c :: rest with
        | 't' :: 'r' :: 'u' :: 'e' :: rest2 => some (Json.bool true, rest2)
        | 'f' :: 'a' :: 'l' :: 's' :: 'e' :: rest2 => some (Json.bool false, rest2)
        | 'n' :: 'u' :: 'l' :: 'l' :: rest2 => some (Json.null, rest2)
        | cs2 => (fun p => (Json.num p.1, p.2)) <$> parseIntLit cs2

/-- Parse the non-empty member list of an object, up to and including the
closing brace. -/
def parseMembersF : Nat → List Char → Option (List (String × Json) × List Char)
  | 0, _ => none
  | fuel + 1, cs =>
    match skipJsonWs cs with
    | '"' :: rest =>
      match parseStrAux rest with
      | none => none
      | some (key, rest2) =>
        match skipJsonWs rest2 with
        | ':' :: rest3 =>
          match parseValueF fuel rest3 with
          | none => none
          | some (v, rest4) =>
            match skipJsonWs rest4 with
            | ',' :: rest5 =>
              match parseMembersF fuel rest5 with
              | some (kvs, rest6) => some ((String.mk key, v) :: kvs, rest6)
              | none => none
            | c :: rest5 =>
              if c == rbraceChar then some ([(String.mk key, v)], rest5) else none
            | [] => none
        | _ => none
    | _ => none

/-- Parse the non-empty element list of an array, up to and including the
closing bracket. -/
def parseElemsF : Nat → List Char → Option (List Json × List Char)
  | 0, _ => none
  | fuel + 1, cs =>
    match parseValueF fuel cs with
    | none => none
    | some (v, rest) =>
      match skipJsonWs rest with
      | ',' :: rest2 =>
        match parseElemsF fuel rest2 with
        | some (vs, rest3) => some (v :: vs, rest3)
        | none => none
      | ']' :: rest2 => some ([v], rest2)
      | _ => none

end

/-- `JSON.parse`: one value, whitespace-padded, nothing else. -/
def jsonParse (s : String) : Option Json :=
  match parseValueF (2 * s.length + 4) s.toList with
  | some (v, rest) => if (skipJsonWs rest).isEmpty then some v else none
  | none => none

/-- Suffix of the input starting at its first opening brace. -/
def afterFirstBrace : List Char → Option (List Char)
  | [] => none
  | c :: rest => if c == lbraceChar then some (c :: rest) else afterFirstBrace rest

/-- `aiResponse.match(/\{[\s\S]*\})/`: the greedy regex matches from the
first opening brace through the last closing brace that follows it. -/
def greedyBraceSlice (s : String) : Option String :=
  match afterFirstBrace s.toList with
  | none => none
  | some [] => none
  | some (b :: tail) =>
    let r := tail.reverse.dropWhile (fun c => !(c == rbraceChar))
    if r.isEmpty then none else some (String.mk (b :: r.reverse))

/-- `parseAIResponse(aiResponse)` (enhanced version): strict parse, then
parse of the regex-extracted slice (whose own failure surfaces as the
raw `SyntaxError`), else the distinct wrapper error. -/
def parseAIResponse (s : String) : Except String Json :=
  match jsonParse s with
  | some v => .ok v
  | none =>
    match greedyBraceSlice s with
    | some sub =>
      match jsonParse sub with
      | some v => .ok v
      | none => .error "SyntaxError"
    | none => .error "Failed to parse AI response as JSON"

/-- Follows the spec's words, for comparison with `greedyBraceSlice`:
"search the text for the first balanced top-level object substring" —
the substring from the first opening brace to the brace that closes it
(naive brace counting). -/
def balancedScanAux : Nat → List Char → List Char → Option (List Char)
  | _, _, [] => none
  | depth, acc, c :: rest =>
    if c == lbraceChar then balancedScanAux (depth + 1) (c :: acc) rest
    else if c == rbraceChar then
      if depth ≤ 1 then some (c :: acc).reverse
      else balancedScanAux (depth - 1) (c :: acc) rest
    else balancedScanAux depth (c :: acc) rest

/-- Follows the spec's words: the first balanced top-level object
substring of the text. -/
def specFirstBalancedObject (s : String) : Option String :=
  match afterFirstBrace s.toList with
  | none => none
  | some suffix => (balancedScanAux 0 [] suffix).map String.mk

/-- The spec's §8 parse-fallback example reply (prose around one object). -/
def proseReply : String :=
  "Sure! Here is the result: \x7b\"productName\":\"Mug\",\"sustainabilityScore\":70\x7d Hope that helps!"

/-- A reply containing two disjoint top-level objects: the greedy slice
spans both and fails to parse, though its first balanced object parses. -/
def twoObjReply : String := "x \x7b\"a\":1\x7d y \x7b\"b\":2\x7d"

/-- The object embedded in `proseReply`. -/
def mugJson : Json :=
  Json.obj [("productName", Json.str "Mug"), ("sustainabilityScore", Json.num 70)]

/-! ## Helper lemmas -/

theorem clampScore_bounds (o : Option Int) : 0 ≤ clampScore o ∧ clampScore o ≤ 100 := by
  cases o with
  | none => decide
  | some n =>
    simp only [clampScore, jsOrInt]
    split <;> constructor <;> omega

theorem append_ne_empty (s t : String) (h : s ≠ "") : s ++ t ≠ "" := by
  cases s with
  | mk d =>
    cases t with
    | mk e =>
      intro he
      apply h
      have hde : d ++ e = [] := congrArg String.data he
      have hd : d = [] := (List.append_eq_nil.mp hde).1
      rw [hd]

theorem jsOrStr_ne_empty (o : Option String) (d : String) (hd : d ≠ "") :
    jsOrStr o d ≠ "" := by
  cases o with
  | none => exact hd
  | some s =>
    simp only [jsOrStr]
    split
    · exact hd
    · next h =>
      intro he
      subst he
      exact h (by decide)

theorem enhanceAlt_buyLink_of_linkFree (score : Int) (rv : ℚ) (x : RawAlt)
    (h : modelLinkFree x = true) :
    (enhanceAlt score rv x).buyLink = derivedBuyLink x := by
  cases x with
  | str s => rfl
  | obj n d sc b =>
    cases b with
    | none => rfl
    | some s =>
      simp [modelLinkFree] at h
      subst h
      simp [enhanceAlt, jsOrStr, derivedBuyLink]

theorem enhanceAlt_populated (score : Int) (rv : ℚ) (x : RawAlt) :
    (enhanceAlt score rv x).description ≠ "" ∧ (enhanceAlt score rv x).buyLink ≠ "" := by
  cases x with
  | str s =>
    constructor
    · simp [enhanceAlt]
    · exact append_ne_empty _ _ (append_ne_empty _ _ (by decide))
  | obj n d sc b =>
    constructor
    · exact jsOrStr_ne_empty d _ (by decide)
    · exact jsOrStr_ne_empty b _ (append_ne_empty _ _ (append_ne_empty _ _ (by decide)))

theorem mem_enhanceAltList (score : Int) (r : Nat → ℚ) :
    ∀ (i : Nat) (l : List RawAlt) (alt : EnhancedAlternative),
      alt ∈ enhanceAltList score r i l → ∃ x rv, alt = enhanceAlt score rv x := by
  intro i l
  induction l generalizing i with
  | nil => intro alt h; simp [enhanceAltList] at h
  | cons a rest ih =>
    intro alt h
    simp only [enhanceAltList, List.mem_cons] at h
    rcases h with h | h
    · exact ⟨a, r i, h⟩
    · exact ih (i + 1) alt h

theorem fallbackAlternatives_populated :
    ∀ alt ∈ fallbackAlternatives, alt.description ≠ "" ∧ alt.buyLink ≠ "" := by decide

/-! ## Claim theorems -/

/-- C1 (counterexample): `validateAndEnhanceAnalysis` does not clamp
`confidence`: a model-supplied confidence of 150 survives above 100. -/
theorem confidence_not_clamped_cex :
    (validateAndEnhanceAnalysis aConf150 qGood rZero).confidence = 150 ∧
      ¬(validateAndEnhanceAnalysis aConf150 qGood rZero).confidence ≤ 100 := by
  constructor
  · rfl
  · decide

/-- C1 (amended): every `sustainabilityScore` returned by
`validateAndEnhanceAnalysis` lies in [0,100]: a nonzero out-of-range
score is pulled to the nearest bound (negative to 0, above 100 to 100,
in-range values kept), and a missing or zero score falls back to the
default 50; `confidence` however is passed through unclamped: any
nonzero model-supplied value, in range or not, is returned as-is, while
a missing or zero confidence inherits the quality report's
confidence. -/
theorem score_clamped_confidence_passthrough (a : RawAnalysis) (q : QualityReport)
    (r : Nat → ℚ) :
    (0 ≤ (validateAndEnhanceAnalysis a q r).sustainabilityScore ∧
      (validateAndEnhanceAnalysis a q r).sustainabilityScore ≤ 100) ∧
    (∀ n : Int, a.sustainabilityScore = some n → n ≠ 0 →
      (validateAndEnhanceAnalysis a q r).sustainabilityScore =
        if n < 0 then 0 else if 100 < n then 100 else n) ∧
    ((a.sustainabilityScore = none ∨ a.sustainabilityScore = some 0) →
      (validateAndEnhanceAnalysis a q r).sustainabilityScore = 50) ∧
    (∀ c : Int, a.confidence = some c → c ≠ 0 →
      (validateAndEnhanceAnalysis a q r).confidence = c) ∧
    ((a.confidence = none ∨ a.confidence = some 0) →
      (validateAndEnhanceAnalysis a q r).confidence = q.confidence) := by
  refine ⟨⟨?_, ?_⟩, ?_, ?_, ?_, ?_⟩
  · simpa [validateAndEnhanceAnalysis] using (clampScore_bounds a.sustainabilityScore).1
  · simpa [validateAndEnhanceAnalysis] using (clampScore_bounds a.sustainabilityScore).2
  · intro n hn hn0
    simp only [validateAndEnhanceAnalysis, clampScore, jsOrInt, hn, beq_iff_eq, hn0, if_false]
    split_ifs <;> omega
  · intro h
    rcases h with h | h <;> simp [validateAndEnhanceAnalysis, clampScore, jsOrInt, h]
  · intro c hc hc0
    simp [validateAndEnhanceAnalysis, jsOrInt, hc, hc0]
  · intro h
    rcases h with h | h <;> simp [validateAndEnhanceAnalysis, jsOrInt, h]

/-- C1 witness: an above-range and a negative score are pulled to the
bounds, a missing score defaults to 50, an out-of-range confidence
passes through, and a missing or zero confidence inherits the quality
report's 90. -/
theorem score_clamped_confidence_passthrough_witness :
    (validateAndEnhanceAnalysis aScore150 qGood rZero).sustainabilityScore = 100 ∧
    (validateAndEnhanceAnalysis aScoreNeg5 qGood rZero).sustainabilityScore = 0 ∧
    (validateAndEnhanceAnalysis aConf150 qGood rZero).sustainabilityScore = 50 ∧
    (validateAndEnhanceAnalysis aConf150 qGood rZero).confidence = 150 ∧
    (validateAndEnhanceAnalysis {} qGood rZero).confidence = 90 ∧
    (validateAndEnhanceAnalysis aConfZero qGood rZero).confidence = 90 :=
  ⟨by
    have h := (score_clamped_confidence_passthrough aScore150 qGood rZero).2.1 150 rfl
      (by decide)
    simpa using h,
   by
    have h := (score_clamped_confidence_passthrough aScoreNeg5 qGood rZero).2.1 (-5) rfl
      (by decide)
    simpa using h,
   (score_clamped_confidence_passthrough aConf150 qGood rZero).2.2.1 (Or.inl rfl),
   (score_clamped_confidence_passthrough aConf150 qGood rZero).2.2.2.1 150 rfl (by decide),
   (score_clamped_confidence_passthrough {} qGood rZero).2.2.2.2 (Or.inl rfl),
   (score_clamped_confidence_passthrough aConfZero qGood rZero).2.2.2.2 (Or.inr rfl)⟩

/-- C2 (counterexample): a model-supplied `buyLink` on an object
alternative survives verbatim in the enhanced record instead of being
replaced by the system-derived link. -/
theorem model_buyLink_survives_cex :
    ((validateAndEnhanceAnalysis aEvilLink qGood rZero).alternatives.map
        EnhancedAlternative.buyLink) = ["https://evil.example/buy"] ∧
      "https://evil.example/buy" ≠ amazonObjAltLink "Eco Cup" := by
  constructor
  · rfl
  · decide

/-- C2 (amended): the alternatives normalization is total — for every
input shape the output alternatives list is non-empty and every record
is populated (non-empty description and purchase link; `score` may be
legitimately absent) — and when an alternative supplies no truthy
purchase link (bare strings, objects with the field absent or empty) the
link is derived deterministically from the alternative's name (or the
fixed placeholder when the name is absent); a truthy model-supplied
`buyLink` however survives verbatim. -/
theorem alternatives_normalization_amended (a : RawAnalysis) (q : QualityReport)
    (r : Nat → ℚ) :
    (validateAndEnhanceAnalysis a q r).alternatives ≠ [] ∧
    (∀ alt ∈ (validateAndEnhanceAnalysis a q r).alternatives,
      alt.description ≠ "" ∧ alt.buyLink ≠ "") ∧
    (∀ (sc : Int) (rv : ℚ) (x : RawAlt), modelLinkFree x = true →
      (enhanceAlt sc rv x).buyLink = derivedBuyLink x) := by
  refine ⟨?_, ?_, fun sc rv x hx => enhanceAlt_buyLink_of_linkFree sc rv x hx⟩
  · show enhanceAlternatives (clampScore a.sustainabilityScore) r a.alternatives ≠ []
    cases ha : a.alternatives with
    | none => simp [enhanceAlternatives, fallbackAlternatives]
    | some l =>
      cases l with
      | nil => simp [enhanceAlternatives, fallbackAlternatives]
      | cons x rest => simp [enhanceAlternatives, enhanceAltList]
  · intro alt halt
    have halt' : alt ∈ enhanceAlternatives (clampScore a.sustainabilityScore) r
        a.alternatives := halt
    cases ha : a.alternatives with
    | none =>
      rw [ha] at halt'
      exact fallbackAlternatives_populated alt halt'
    | some l =>
      rw [ha] at halt'
      cases l with
      | nil => exact fallbackAlternatives_populated alt halt'
      | cons x rest =>
        simp only [enhanceAlternatives, List.isEmpty_cons] at halt'
        obtain ⟨y, rv, hy⟩ :=
          mem_enhanceAltList (clampScore a.sustainabilityScore) r 0 (x :: rest) alt halt'
        rw [hy]
        exact enhanceAlt_populated _ rv y

/-- C2 witness. -/
theorem alternatives_normalization_amended_witness :
    (validateAndEnhanceAnalysis {} qGood rZero).alternatives ≠ [] ∧
    (enhanceAlt 40 0 (RawAlt.str "Steel Bottle")).buyLink =
      derivedBuyLink (RawAlt.str "Steel Bottle") :=
  ⟨(alternatives_normalization_amended {} qGood rZero).1,
   (alternatives_normalization_amended {} qGood rZero).2.2 40 0
     (RawAlt.str "Steel Bottle") (by decide)⟩

/-- C9 (code bug): the validator is not deterministic — on the same
parsed reply and quality report, two different `Math.random()` streams
yield different enhanced records (the score of the bare-string
alternative differs). -/
theorem validate_randomness_nondeterministic :
    validateAndEnhanceAnalysis aRandomScore qGood rZero ≠
      validateAndEnhanceAnalysis aRandomScore qGood rHalf := by decide

/-- C3 (confirmed): `generatePlatformLinks` is a pure function of the
product name — two calls with the same name are identical — and its
output always has exactly 3 entries, one per platform, in the fixed
order flipkart, amazon, meesho. -/
theorem generatePlatformLinks_pure_three_fixed (name : String) :
    generatePlatformLinks name = generatePlatformLinks name ∧
    (generatePlatformLinks name).length = 3 ∧
    (generatePlatformLinks name).map PlatformLink.platform =
      ["flipkart", "amazon", "meesho"] :=
  ⟨rfl, rfl, rfl⟩

/-- C4 (counterexample): on a reply holding two disjoint top-level
objects, the fallback is not "parse the first balanced top-level object
substring": the first balanced object parses fine, yet `parseAIResponse`
fails, because its greedy regex slice spans both objects. -/
theorem parseAIResponse_greedy_cex :
    parseAIResponse twoObjReply = Except.error "SyntaxError" ∧
    specFirstBalancedObject twoObjReply = some "\x7b\"a\":1\x7d" ∧
    jsonParse "\x7b\"a\":1\x7d" = some (Json.obj [("a", Json.num 1)]) :=
  ⟨rfl, rfl, rfl⟩

/-- C4 (amended): `parseAIResponse` first attempts strict JSON parsing;
on failure it extracts the substring from the first opening brace to the
last closing brace and parses that (for prose around a single embedded
object this is exactly the embedded object); any success is the parse of
the reply text or of that slice — a default record is never fabricated —
and when no brace-delimited slice exists it raises the distinct
parse-failure error. -/
theorem parseAIResponse_amended (s : String) :
    (∀ v : Json, parseAIResponse s = Except.ok v →
      jsonParse s = some v ∨ ∃ t, greedyBraceSlice s = some t ∧ jsonParse t = some v) ∧
    (jsonParse s = none → greedyBraceSlice s = none →
      parseAIResponse s = Except.error "Failed to parse AI response as JSON") := by
  constructor
  · intro v hv
    rcases h1 : jsonParse s with _ | v0
    · rcases h2 : greedyBraceSlice s with _ | t
      · have hp : parseAIResponse s = Except.error "Failed to parse AI response as JSON" := by
          simp only [parseAIResponse, h1, h2]
        rw [hp] at hv
        exact absurd hv (by simp)
      · rcases h3 : jsonParse t with _ | v1
        · have hp : parseAIResponse s = Except.error "SyntaxError" := by
            simp only [parseAIResponse, h1, h2, h3]
          rw [hp] at hv
          exact absurd hv (by simp)
        · have hp : parseAIResponse s = Except.ok v1 := by
            simp only [parseAIResponse, h1, h2, h3]
          rw [hp] at hv
          injection hv with h
          exact Or.inr ⟨t, rfl, h ▸ h3⟩
    · have hp : parseAIResponse s = Except.ok v0 := by
        simp only [parseAIResponse, h1]
      rw [hp] at hv
      injection hv with h
      exact Or.inl (by rw [h])
  · intro h1 h2
    simp only [parseAIResponse, h1, h2]

/-- C4 witness: the spec's prose-wrapped reply is recovered through the
fallback slice. -/
theorem parseAIResponse_amended_witness :
    jsonParse proseReply = some mugJson ∨
      ∃ t, greedyBraceSlice proseReply = some t ∧ jsonParse t = some mugJson :=
  (parseAIResponse_amended proseReply).1 mugJson rfl

/-- C5 (confirmed): the client gate routes to the unknown-product error
exactly when the lower-cased product name contains "unknown" or equals
"unidentified product" or "unclear"; this check runs before the
confidence check, and when neither check fires the outcome is the
result. -/
theorem gate_unknown_product_exact (name : String) (conf : Option Int) :
    (analyzeGate name conf = GateOutcome.unknownProduct ↔
      (hasSubstrCh (lowerAscii name) ("unknown".toList) = true ∨
        lowerAscii name = "unidentified product".toList ∨
        lowerAscii name = "unclear".toList)) ∧
    (isUnknownName name = true → analyzeGate name conf = GateOutcome.unknownProduct) ∧
    (isUnknownName name = false → lowConfTruthyCheck conf = false →
      analyzeGate name conf = GateOutcome.result) := by
  have hiff : isUnknownName name = true ↔
      (hasSubstrCh (lowerAscii name) ("unknown".toList) = true ∨
        lowerAscii name = "unidentified product".toList ∨
        lowerAscii name = "unclear".toList) := by
    simp [isUnknownName, or_assoc]
  refine ⟨⟨fun h => ?_, fun h => ?_⟩, fun h => ?_, fun h1 h2 => ?_⟩
  · apply hiff.mp
    cases hx : isUnknownName name with
    | true => rfl
    | false =>
      exfalso
      simp [analyzeGate, hx] at h
      split at h <;> simp at h
  · simp [analyzeGate, hiff.mpr h]
  · simp [analyzeGate, h]
  · simp [analyzeGate, h1, h2]

/-- C5 witness. -/
theorem gate_unknown_product_exact_witness :
    analyzeGate "Unknown" (some 10) = GateOutcome.unknownProduct ∧
    analyzeGate "unidentified product" none = GateOutcome.unknownProduct ∧
    analyzeGate "UNCLEAR" (some 80) = GateOutcome.unknownProduct ∧
    analyzeGate "Bamboo Toothbrush" (some 80) = GateOutcome.result :=
  ⟨(gate_unknown_product_exact "Unknown" (some 10)).2.1 (by decide),
   (gate_unknown_product_exact "unidentified product" none).2.1 (by decide),
   (gate_unknown_product_exact "UNCLEAR" (some 80)).2.1 (by decide),
   (gate_unknown_product_exact "Bamboo Toothbrush" (some 80)).2.2 (by decide) (by decide)⟩

/-- C6 (counterexample): a present confidence of 0 is below 50 yet does
not trigger the low-confidence error — JS truthiness short-circuits the
check — so "present and < 50" does not characterize the gate. -/
theorem gate_zero_confidence_cex :
    analyzeGate "Bamboo Toothbrush" (some 0) = GateOutcome.result ∧
    isUnknownName "Bamboo Toothbrush" = false ∧ ((0 : Int) < 50) := by decide

/-- C6 (amended): for responses not routed to the unknown-product error,
the gate routes to the low-confidence error exactly when the confidence
field is present, nonzero, and strictly less than 50 (so 49 triggers it
and 50 does not). -/
theorem gate_low_confidence_amended (name : String) (conf : Option Int)
    (h : isUnknownName name = false) :
    analyzeGate name conf = GateOutcome.lowConfidence ↔
      ∃ c : Int, conf = some c ∧ c ≠ 0 ∧ c < 50 := by
  simp only [analyzeGate, h, Bool.false_eq_true, if_false]
  cases conf with
  | none => simp [lowConfTruthyCheck]
  | some c =>
    by_cases h0 : c = 0
    · subst h0
      simp [lowConfTruthyCheck]
    · by_cases h5 : c < 50
      · constructor
        · intro _
          exact ⟨c, rfl, h0, h5⟩
        · intro _
          simp [lowConfTruthyCheck, h0, h5]
      · constructor
        · intro hg
          exfalso
          revert hg
          simp [lowConfTruthyCheck, h5]
        · rintro ⟨c2, hc2, h02, h52⟩
          injection hc2 with he
          subst he
          exact absurd h52 h5

/-- C6 witness. -/
theorem gate_low_confidence_amended_witness :
    analyzeGate "Bamboo Toothbrush" (some 49) = GateOutcome.lowConfidence ∧
    analyzeGate "Bamboo Toothbrush" (some 50) = GateOutcome.result :=
  ⟨(gate_low_confidence_amended "Bamboo Toothbrush" (some 49) (by decide)).mpr
      ⟨49, rfl, by decide, by decide⟩,
   by decide⟩

theorem validFormat_not_empty (img : String)
    (hfmt : validateImageFormat (some img) = FormatResult.ok) : (img == "") = false := by
  cases hx : (img == "") with
  | false => rfl
  | true =>
    exfalso
    have he : img = "" := by simpa using hx
    rw [he] at hfmt
    simp [validateImageFormat] at hfmt

theorem route_ok_of_gate_false (img : String) (q : QualityReport)
    (hfmt : validateImageFormat (some img) = FormatResult.ok)
    (hg : (q.quality == "blur" && decide (q.confidence < 40)) = false) :
    analyzeRoute (some img) true q = RouteOutcome.proceedToAICall := by
  have hne := validFormat_not_empty img hfmt
  simp [analyzeRoute, hne, hfmt, hg]

/-- C7 (confirmed): for a format-valid request whose quality report is
blur with confidence below 40, the route handler rejects with the
quality tag, confidence and warnings before the external AI call, and at
the boundary a blur report with confidence 40 proceeds to the call. -/
theorem route_blur_gate (img : String) (q : QualityReport)
    (hfmt : validateImageFormat (some img) = FormatResult.ok) :
    (q.quality = "blur" → q.confidence < 40 →
      analyzeRoute (some img) true q =
        RouteOutcome.qualityReject "blur" q.confidence q.warnings) ∧
    (q.quality = "blur" → q.confidence = 40 →
      analyzeRoute (some img) true q = RouteOutcome.proceedToAICall) := by
  have hne := validFormat_not_empty img hfmt
  constructor
  · intro hq hc
    simp [analyzeRoute, hne, hfmt, hq, hc]
  · intro hq hc
    have hg : (q.quality == "blur" && decide (q.confidence < 40)) = false := by
      simp [hq, hc]
    exact route_ok_of_gate_false img q hfmt hg

/-- C7 witness. -/
theorem route_blur_gate_witness :
    analyzeRoute (some imgOk) true qBlur39 =
      RouteOutcome.qualityReject "blur" 39 [blurWarning] ∧
    analyzeRoute (some imgOk) true qBlur40 = RouteOutcome.proceedToAICall :=
  ⟨(route_blur_gate imgOk qBlur39 (by decide)).1 rfl (by decide),
   (route_blur_gate imgOk qBlur40 (by decide)).2 rfl rfl⟩

/-- C8 (counterexample): an image that is both blurry and under-sized
does not keep the `blur` tag — the low-resolution branch overwrites it
with `poor` (confidence stays 50). -/
theorem blur_small_poor_cex :
    (analyzeImageQualityStats [chLow] 100 100).quality = "poor" ∧
    (analyzeImageQualityStats [chLow] 100 100).confidence = 50 ∧
    isBlurryStats [chLow] = true ∧ (100 < 200) := by decide

/-- C8 (amended): the estimator tags `blur` with confidence 50 and a
blur warning when some channel mean is below 50 or stdev below 20 and
the image is not under-sized; an under-sized image is tagged `poor` —
overriding `good` and also overriding `blur` — with confidence capped at
60 (so 50 when also blurry) and a low-resolution warning; otherwise the
tag is `good` with confidence 90. -/
theorem image_quality_tiers_amended (channels : List ChannelStat) (w h : Nat) :
    (isBlurryStats channels = true → ¬(w < 200 ∨ h < 200) →
      (analyzeImageQualityStats channels w h).quality = "blur" ∧
      (analyzeImageQualityStats channels w h).confidence = 50 ∧
      blurWarning ∈ (analyzeImageQualityStats channels w h).warnings) ∧
    (isBlurryStats channels = false → (w < 200 ∨ h < 200) →
      (analyzeImageQualityStats channels w h).quality = "poor" ∧
      (analyzeImageQualityStats channels w h).confidence = 60 ∧
      lowResWarning ∈ (analyzeImageQualityStats channels w h).warnings) ∧
    (isBlurryStats channels = true → (w < 200 ∨ h < 200) →
      (analyzeImageQualityStats channels w h).quality = "poor" ∧
      (analyzeImageQualityStats channels w h).confidence = 50 ∧
      blurWarning ∈ (analyzeImageQualityStats channels w h).warnings ∧
      lowResWarning ∈ (analyzeImageQualityStats channels w h).warnings) ∧
    (isBlurryStats channels = false → ¬(w < 200 ∨ h < 200) →
      (analyzeImageQualityStats channels w h).quality = "good" ∧
      (analyzeImageQualityStats channels w h).confidence = 90) := by
  refine ⟨fun hb hs => ?_, fun hb hs => ?_, fun hb hs => ?_, fun hb hs => ?_⟩
  · have hs' : (decide (w < 200) || decide (h < 200)) = false := by simpa using hs
    refine ⟨?_, ?_, ?_⟩ <;>
      cases hl : (decide (w > 4000) || decide (h > 4000)) <;>
        simp [analyzeImageQualityStats, hb, hs', hl]
  · have hs' : (decide (w < 200) || decide (h < 200)) = true := by simpa using hs
    refine ⟨?_, ?_, ?_⟩ <;>
      cases hl : (decide (w > 4000) || decide (h > 4000)) <;>
        simp [analyzeImageQualityStats, hb, hs', hl]
  · have hs' : (decide (w < 200) || decide (h < 200)) = true := by simpa using hs
    refine ⟨?_, ?_, ?_, ?_⟩ <;>
      cases hl : (decide (w > 4000) || decide (h > 4000)) <;>
        simp [analyzeImageQualityStats, hb, hs', hl]
  · have hs' : (decide (w < 200) || decide (h < 200)) = false := by simpa using hs
    constructor <;>
      cases hl : (decide (w > 4000) || decide (h > 4000)) <;>
        simp [analyzeImageQualityStats, hb, hs', hl]

/-- C8 witness: a blurry, under-sized image. -/
theorem image_quality_tiers_amended_witness :
    (analyzeImageQualityStats [chLow] 100 300).quality = "poor" ∧
    (analyzeImageQualityStats [chLow] 100 300).confidence = 50 ∧
    blurWarning ∈ (analyzeImageQualityStats [chLow] 100 300).warnings ∧
    lowResWarning ∈ (analyzeImageQualityStats [chLow] 100 300).warnings :=
  (image_quality_tiers_amended [chLow] 100 300).2.2.1 (by decide) (by decide)

/-- C10 (confirmed): the estimator can never report `blur` with
confidence below 40 — its blur branch pins confidence at exactly 50 and
the low-resolution cap replaces the tag rather than lowering blur below
the gate — so for estimator-produced reports (including the soft-failure
fallback) the route's quality-rejection branch is unreachable and every
format-valid request proceeds to the external AI call. -/
theorem blur_reject_unreachable (channels : List ChannelStat) (w h : Nat) (img : String)
    (hfmt : validateImageFormat (some img) = FormatResult.ok) :
    ((analyzeImageQualityStats channels w h).quality = "blur" →
      (analyzeImageQualityStats channels w h).confidence = 50) ∧
    analyzeRoute (some img) true (analyzeImageQualityStats channels w h) =
      RouteOutcome.proceedToAICall ∧
    analyzeRoute (some img) true analyzeImageQualityFailure =
      RouteOutcome.proceedToAICall := by
  have hq : (analyzeImageQualityStats channels w h).quality = "blur" →
      (analyzeImageQualityStats channels w h).confidence = 50 := by
    intro hblur
    by_cases hs : (decide (w < 200) || decide (h < 200)) = true
    · exfalso
      simp [analyzeImageQualityStats, hs] at hblur
    · have hs' : (decide (w < 200) || decide (h < 200)) = false := by
        revert hs
        cases (decide (w < 200) || decide (h < 200)) <;> simp
      cases hb : isBlurryStats channels with
      | true => simp [analyzeImageQualityStats, hb, hs']
      | false =>
        exfalso
        simp [analyzeImageQualityStats, hb, hs'] at hblur
  have hg : ((analyzeImageQualityStats channels w h).quality == "blur" &&
      decide ((analyzeImageQualityStats channels w h).confidence < 40)) = false := by
    by_cases hq2 : (analyzeImageQualityStats channels w h).quality = "blur"
    · have hc := hq hq2
      simp [hq2, hc]
    · simp [hq2]
  exact ⟨hq, route_ok_of_gate_false img _ hfmt hg,
    route_ok_of_gate_false img _ hfmt (by decide)⟩

/-- C10 witness. -/
theorem blur_reject_unreachable_witness :
    analyzeRoute (some imgOk) true (analyzeImageQualityStats [chLow] 300 300) =
      RouteOutcome.proceedToAICall ∧
    analyzeRoute (some imgOk) true analyzeImageQualityFailure =
      RouteOutcome.proceedToAICall :=
  ⟨(blur_reject_unreachable [chLow] 300 300 imgOk (by decide)).2.1,
   (blur_reject_unreachable [chLow] 300 300 imgOk (by decide)).2.2⟩
